import Mathlib

/-!
Verification development for the download-orchestration core of the
Media-Downloader application.

The Lean definitions below are a shallow embedding of the Python sources:

* `ui_elements/subprocess_output_processor.py` — the per-job processor
  (stream reading, progress/metadata parsing, error classification,
  terminal-status emission);
* `download_logic.py` — the legacy single-function driver
  (`run_download_process`) actually wired into the application;
* `download_process_core.py` — command construction and helper selection;
* `ui_elements/main_app_window.py` — the queue-manager handlers.

Modelling conventions:

* Python strings are `String`/`List Char`; byte-level and full Unicode
  concerns are out of scope (all relevant literals are ASCII).
* Machine-independent idealization: progress percentages are `ℚ`
  (the parsed values here are exactly representable, so no IEEE
  subtleties arise for the stated properties).
* External effects (json.loads, os.path.exists, os.path.normpath,
  the thumbnail helpers, wall-clock strings) enter as explicit
  environment fields, so every path of the embedded control flow stays
  a total computable function of its environment.
* The event channel of the application is `queue.Queue()` without a
  maxsize (main_app_window.py line 79), hence unbounded: `put` with a
  timeout can never raise `queue.Full`, and the embedding treats every
  enqueue as succeeding.
-/

namespace MediaDL

/-! ## String utilities (Python semantics) -/

/-- ASCII lowercase of one character, modelling Python `str.lower` on the
ASCII range (all pattern literals in the sources are ASCII). -/
def pyLowerChar (c : Char) : Char := c.toLower

/-- Lowercase a character list. -/
def lowerL (s : List Char) : List Char := s.map pyLowerChar

/-- Lowercase a string, modelling Python `str.lower`. -/
def pyLowerStr (s : String) : String := ⟨lowerL s.toList⟩

/-- The whitespace characters of Python `str.strip` and of the regex
class backslash-s, restricted to the ASCII range. -/
def isPyWs (c : Char) : Bool :=
  c = ' ' || c = '\t' || c = '\n' || c = '\r' || c = '\x0b' || c = '\x0c'

/-- Python `str.strip()`: drop whitespace from both ends. -/
def pyStrip (s : List Char) : List Char :=
  ((s.dropWhile isPyWs).reverse.dropWhile isPyWs).reverse

/-- Python `str.strip()` on `String`. -/
def pyStripStr (s : String) : String := ⟨pyStrip s.toList⟩

/-- Does `pat` occur as a contiguous sublist of `s` (Python `pat in s`). -/
def containsSub (pat : List Char) : List Char → Bool
  | [] => pat.isEmpty
  | c :: t => pat.isPrefixOf (c :: t) || containsSub pat t

/-- Index of the first occurrence of `pat` in `s`, if any (leftmost match
position of a literal pattern, as found by `re.search`). -/
def findSubIdx (pat : List Char) : List Char → Option Nat
  | [] => if pat.isEmpty then some 0 else none
  | c :: t =>
    if pat.isPrefixOf (c :: t) then some 0
    else (findSubIdx pat t).map (· + 1)

/-- The last `n` elements of a list (Python `l[-n:]` for `n > 0`). -/
def takeLast (n : Nat) (l : List α) : List α := l.drop (l.length - n)

/-! ## Python float conversion on strings drawn from the class [0-9.] -/

/-- ASCII decimal digit test (the regex class backslash-d on ASCII input). -/
def isAsciiDigit (c : Char) : Bool := '0' ≤ c && c ≤ '9'

/-- Membership in the regex character class `[\d\.]`. -/
def isDigitDot (c : Char) : Bool := isAsciiDigit c || c = '.'

/-- Value of a digit string. -/
def digitsToNat (s : List Char) : Nat :=
  s.foldl (fun a c => a * 10 + (c.toNat - '0'.toNat)) 0

/-- Python `float(s)` for a string `s` drawn from the class `[\d\.]+`
(the only shape the progress regex can capture): the conversion succeeds
exactly when `s` holds at most one dot and at least one digit; otherwise
`float` raises `ValueError`.  The result is modelled exactly in `ℚ`. -/
def parsePyFloat (s : List Char) : Option ℚ :=
  if !s.all isDigitDot then none
  else
    let dots := (s.filter (· = '.')).length
    if dots = 0 then
      if s.isEmpty then none else some (digitsToNat s : ℚ)
    else if dots = 1 then
      let ip := s.takeWhile (· ≠ '.')
      let fp := (s.dropWhile (· ≠ '.')).drop 1
      if ip.isEmpty && fp.isEmpty then none
      else some ((digitsToNat ip : ℚ) + (digitsToNat fp : ℚ) / (10 : ℚ) ^ fp.length)
    else none

/-! ## The progress regex

`subprocess_output_processor._read_stream` (line 234) and
`download_logic.run_download_process` (line 423) both search each line for

  `\[download\]\s+([\d\.]+)%\s+of\s+.*?(?:at\s+([\d\.]+\s*(?:KiB/s|MiB/s|GiB/s|B/s))?)?\s*(?:ETA\s+(.*))?`

The embedding below reproduces Python `re.search` semantics for this
fixed pattern.  Two facts make the match deterministic, so no general
backtracking engine is needed:

* every bounded quantifier in the pattern is over a character class that
  is disjoint from the single character that must follow it (digits/dots
  before `%`, whitespace before letters), so the greedy maximal run is
  the only viable choice; and
* everything after the lazy `.*?` is optional, so the lazy star always
  succeeds with zero width: the `at`/`ETA` groups can only capture when
  they start immediately after `of\s+`.

`re.search` scans start positions left to right; the pattern begins with
the literal `[download]`, so only positions carrying that literal can
match, and the first position whose continuation succeeds wins. -/

/-- The speed unit alternatives, in the order the pattern lists them. -/
def speedUnits : List (List Char) :=
  ["KiB/s".toList, "MiB/s".toList, "GiB/s".toList, "B/s".toList]

/-- Groups captured by the progress pattern: group 1 (percent numeral),
group 2 (speed), group 3 (ETA); `none` models an unmatched group. -/
structure ProgressGroups where
  pct : List Char
  spd : Option (List Char)
  eta : Option (List Char)
deriving Repr, DecidableEq

/-- Match `(?:KiB/s|MiB/s|GiB/s|B/s)` at the head of `s`. -/
def matchUnit (s : List Char) : Option (List Char × List Char) :=
  (speedUnits.find? (·.isPrefixOf s)).map (fun u => (u, s.drop u.length))

/-- Match the capture `([\d\.]+\s*(?:KiB/s|MiB/s|GiB/s|B/s))` at the head
of `s`, returning the captured text and the rest. -/
def speedGroup (s : List Char) : Option (List Char × List Char) :=
  let num := s.takeWhile isDigitDot
  if num.isEmpty then none
  else
    let s1 := s.drop num.length
    let ws := s1.takeWhile isPyWs
    let s2 := s1.drop ws.length
    (matchUnit s2).map (fun p => (num ++ ws ++ p.1, p.2))

/-- Match the optional group `(?:at\s+(speed)?)?` at the head of `s`:
returns the group-2 capture (if any) and the rest of the input. -/
def atGroup (s : List Char) : Option (List Char) × List Char :=
  if ("at".toList).isPrefixOf s then
    let s1 := s.drop 2
    let ws := s1.takeWhile isPyWs
    if ws.isEmpty then (none, s)
    else
      let s2 := s1.drop ws.length
      match speedGroup s2 with
      | some (cap, rest) => (some cap, rest)
      | none => (none, s2)
  else (none, s)

/-- Match the optional group `(?:ETA\s+(.*))?` at the head of `s`:
group 3 captures greedily to the end of the line (the input holds no
newline, having come from a stripped single line). -/
def etaGroup (s : List Char) : Option (List Char) :=
  if ("ETA".toList).isPrefixOf s then
    let s1 := s.drop 3
    let ws := s1.takeWhile isPyWs
    if ws.isEmpty then none
    else some (s1.drop ws.length)
  else none

/-- Continuation of the progress pattern after the literal `[download]`. -/
def progressAfter (s : List Char) : Option ProgressGroups :=
  let ws1 := s.takeWhile isPyWs
  if ws1.isEmpty then none else
  let s1 := s.drop ws1.length
  let num := s1.takeWhile isDigitDot
  if num.isEmpty then none else
  match s1.drop num.length with
  | '%' :: s3 =>
    let ws2 := s3.takeWhile isPyWs
    if ws2.isEmpty then none else
    let s4 := s3.drop ws2.length
    if ("of".toList).isPrefixOf s4 then
      let s5 := s4.drop 2
      let ws3 := s5.takeWhile isPyWs
      if ws3.isEmpty then none else
      let s6 := s5.drop ws3.length
      let ag := atGroup s6
      let s8 := ag.2.drop ((ag.2.takeWhile isPyWs).length)
      some { pct := num, spd := ag.1, eta := etaGroup s8 }
    else none
  | _ => none

/-- `re.search` of the progress pattern over a line: scan start positions
left to right; a position can match only if it carries the literal
`[download]` followed by a successful continuation. -/
def progressSearch : List Char → Option ProgressGroups
  | [] => none
  | c :: t =>
    match (if ("[download]".toList).isPrefixOf (c :: t)
           then progressAfter ((c :: t).drop 10) else none) with
    | some g => some g
    | none => progressSearch t

/-- Result of running the progress-parsing block on one line. -/
inductive ProgressOutcome where
  /-- The regex did not match: the line is not a progress line. -/
  | noMatch
  /-- The regex matched but `float(group(1))` raised `ValueError`,
  killing the reader thread (processor) or the whole driver loop
  (legacy driver). -/
  | raised
  /-- A progress update with the given fields is emitted. -/
  | fields (percent : ℚ) (speed eta : String)
deriving Repr, DecidableEq

/-- Python truthiness test applied to an optional capture
(`if progress_match.group(2)`): `None` and the empty string are falsy. -/
def optTruthy : Option (List Char) → Option (List Char)
  | some [] => none
  | x => x

/-- The progress-parsing block of `_read_stream` (lines 233-266) and of
the legacy driver (lines 422-433): search the pattern, convert group 1
with `float`, and default absent/falsy speed and ETA groups to "N/A". -/
def progressLineOutcome (line : List Char) : ProgressOutcome :=
  match progressSearch line with
  | none => .noMatch
  | some g =>
    match parsePyFloat g.pct with
    | none => .raised
    | some p =>
      .fields p
        (match optTruthy g.spd with
         | some sp => ⟨pyStrip sp⟩
         | none => "N/A")
        (match optTruthy g.eta with
         | some e => ⟨pyStrip e⟩
         | none => "N/A")

end MediaDL

namespace MediaDL

/-! ## The yt-dlp error classifier

`subprocess_output_processor.py` lines 32-127 (the same table and logic,
modulo the window sizes, appears in `download_logic.py` lines 208-267).

Every pattern in the table has the shape `ERROR:.*(?:alt1|...|altk)`
with `re.IGNORECASE`, except the final catch-all `ERROR:(.*)`.  Since
`.` does not match a newline and no literal contains one, a pattern
matches the newline-joined diagnostic string exactly when it matches one
of its lines; and it matches a line exactly when the line contains
`error:` (case-insensitively) with some alternative occurring entirely
after that occurrence.  The leftmost match of the catch-all lies in the
first line containing `error:`, at the first in-line occurrence.  The
embedding therefore works line by line. -/

/-- The specific rows of `YT_DLP_ERROR_PATTERNS` (all but the final
catch-all), as (alternative literals, message). -/
def ytDlpErrorTable : List (List String × String) := [
  (["video is unavailable", "This video is not available", "unavailable in your country"],
   "Video Unavailable: This video cannot be accessed (e.g., deleted, private, region-blocked)."),
  (["age-restricted"],
   "Age-Restricted Video: Please ensure you are logged in if required, or access via a browser."),
  (["private video", "requires login"],
   "Login/Private Video: This video is private or requires login credentials (e.g., channel membership)."),
  (["The uploader has not made this video available in your country", "geo-restricted"],
   "Geo-Restricted: Video is not available in your region."),
  (["no video formats found", "no audio formats found"],
   "No Formats Found: yt-dlp could not find any suitable video or audio formats."),
  (["Too Many Requests", "429"],
   "Rate Limit Exceeded: You are making too many requests. Try again later, or use a VPN."),
  (["The playlist is empty"],
   "Empty Playlist: The specified playlist contains no videos."),
  (["VPN detected", "Sorry for the interruption", "Try again later"],
   "VPN/Bot Detection: The platform may be detecting VPN or automated access. Try a different connection or method."),
  (["Could not download WebPage", "HTTP Error 404", "403", "400"],
   "Network/URL Error: Failed to retrieve video information from the URL (e.g., page not found, access denied)."),
  (["Unsupported URL"],
   "Unsupported URL: The provided URL is not supported by yt-dlp or the specific extractor."),
  (["Unknown host"],
   "Network Error: Could not resolve the host name. Check your internet connection.")]

/-- The fallback message of the catch-all row. -/
def catchAllDefaultMsg : String := "yt-dlp Error: Check log for details."

/-- Does a line contain a case-insensitive occurrence of `ERROR:`
(i.e. does the catch-all pattern match it). -/
def lineHasErrorColon (line : List Char) : Bool :=
  (findSubIdx ("error:".toList) (lowerL line)).isSome

/-- Does the pattern row with the given alternatives match a line:
`error:` occurs (case-insensitively) and some alternative occurs
entirely after it. -/
def rowMatchesLine (alts : List String) (line : List Char) : Bool :=
  match findSubIdx ("error:".toList) (lowerL line) with
  | none => false
  | some i => alts.any (fun a => containsSub (lowerL a.toList) ((lowerL line).drop (i + 6)))

/-- Group 1 of the catch-all on the joined diagnostic text: the original-
case text after the first case-insensitive `ERROR:` of the first line
containing one. -/
def catchAllPayload (lines : List String) : Option (List Char) :=
  match lines.find? (fun l => lineHasErrorColon l.toList) with
  | none => none
  | some l =>
    match findSubIdx ("error:".toList) (lowerL l.toList) with
    | none => none
    | some i => some (l.toList.drop (i + 6))

/-- `captured[:150]` plus an ellipsis when `len(captured) > 150`. -/
def truncate150 (p : List Char) : String :=
  if p.length > 150 then (⟨p.take 150⟩ : String) ++ "..." else ⟨p⟩

/-- The pattern loop of `_parse_yt_dlp_error_internal` (lines 114-127):
first matching specific row wins; otherwise the catch-all builds a
truncated message from its stripped capture, or returns its fixed
message when the capture strips to nothing; `None` when nothing
matches. -/
def matchErrorTable (base : List String) : Option String :=
  match (ytDlpErrorTable.find? (fun row => base.any (fun l => rowMatchesLine row.1 l.toList))).map (·.2) with
  | some m => some m
  | none =>
    match catchAllPayload base with
    | none => none
    | some payload =>
      let cap := pyStrip payload
      if cap.isEmpty then some catchAllDefaultMsg
      else some ("yt-dlp Error: " ++ truncate150 cap)

/-- `_parse_yt_dlp_error_internal` (processor version, lines 99-127):
restrict to the last 500 lines, keep the lines mentioning
error/warning/fail (falling back to all 500 when none does — a line
passing the filter necessarily joins to a non-empty string, so the
Python truthiness test on the joined string is the emptiness test on
the filtered list), then run the table. -/
def parseYtDlpErrorProc (outputLines : List String) : Option String :=
  let relevant := takeLast 500 outputLines
  let filtered := relevant.filter (fun l =>
    containsSub ("error".toList) (lowerL l.toList) ||
    containsSub ("warning".toList) (lowerL l.toList) ||
    containsSub ("fail".toList) (lowerL l.toList))
  let base := if filtered.isEmpty then relevant else filtered
  matchErrorTable base

/-- `parse_yt_dlp_error` (legacy driver version, lines 247-267): same
logic without the 500-line window, falling back to the last 10 lines. -/
def parseYtDlpErrorDL (outputLines : List String) : Option String :=
  let filtered := outputLines.filter (fun l =>
    containsSub ("error".toList) (lowerL l.toList) ||
    containsSub ("warning".toList) (lowerL l.toList) ||
    containsSub ("fail".toList) (lowerL l.toList))
  let base := if filtered.isEmpty then takeLast 10 outputLines else filtered
  matchErrorTable base

end MediaDL

namespace MediaDL

/-! ## Events and the terminal status payload -/

/-- The dictionary built by `_send_final_status` (lines 444-455).  The
legacy driver builds payloads of the same shape; where it omits keys
(`thumbnail_path`/`sub_indicator` on non-success paths) the embedding
uses `none`/`""`, which is how every consumer reads the absent keys. -/
structure StatusPayload where
  status : String
  message : String
  filePath : Option String
  downloadSuccess : Bool
  dateStr : String
  itemType : String
  isPlaylistItem : Bool
  title : String
  thumbnailPath : Option String
  subIndicator : String
deriving Repr, DecidableEq

/-- Messages the processor puts on the event channel. -/
inductive Ev where
  /-- `MSG_DOWNLOAD_ITEM_UPDATE` carrying a title refresh (metadata). -/
  | updateTitle (title url : String)
  /-- `MSG_DOWNLOAD_ITEM_UPDATE` carrying a progress snapshot. -/
  | updateProgress (percent : ℚ) (speed eta status : String)
  /-- A plain log-line message (`MSG_LOG_PREFIX`-prefixed string). -/
  | log (text : String)
  /-- `MSG_DOWNLOAD_ITEM_STATUS`: the terminal event. -/
  | finalStatus (p : StatusPayload)
deriving Repr, DecidableEq

/-- Is an event the terminal status event. -/
def isFinalEv : Ev → Bool
  | .finalStatus _ => true
  | _ => false

/-- The terminal payloads contained in an event trace. -/
def terminalEvents (evs : List Ev) : List StatusPayload :=
  evs.filterMap (fun e => match e with | .finalStatus p => some p | _ => none)

/-- The log texts contained in an event trace. -/
def logEvents (evs : List Ev) : List String :=
  evs.filterMap (fun e => match e with | .log t => some t | _ => none)

/-! ## The stream reader (`_read_stream`, lines 178-292) -/

/-- Outcome of `json.loads` on a metadata line, restricted to the fields
the processor reads: `metadata.get("title", ...)` and
`metadata.get("filepath") or metadata.get("_filename")` (the latter
already collapsed to one optional value, `none` when both keys are
missing or falsy). -/
structure Meta where
  title : Option String
  filepath : Option String
deriving Repr, DecidableEq

/-- Environment of the reader: the external library calls it makes. -/
structure RSEnv where
  /-- `json.loads` on a line (`none` models `JSONDecodeError`). -/
  jsonParse : String → Option Meta
  /-- `os.path.normpath`. -/
  normpath : String → String
  /-- `self.initial_title` (the request URL). -/
  initialTitle : String

/-- Mutable per-job state shared by the two readers
(`download_title`, `final_filename_with_path`,
`yt_dlp_full_output_for_error_parse`). -/
structure RSState where
  title : String
  finalPath : Option String
  buffer : List String
deriving Repr, DecidableEq

/-- Append to the bounded diagnostic buffer: push, then evict the oldest
entry past `MAX_OUTPUT_LINES_FOR_ERROR_PARSE = 1000` (lines 187-195). -/
def bufferPush (buf : List String) (entry : String) : List String :=
  let b := buf ++ [entry]
  if b.length > 1000 then b.drop 1 else b

/-- Capture of `(.+?)"`: at least one character, lazily up to the next
double quote. -/
def lazyCaptureToQuote : List Char → Option (List Char)
  | [] => none
  | c :: t =>
    match findSubIdx ['"'] t with
    | none => none
    | some j => some (c :: t.take j)

/-- `re.search(r'Merging formats into "(.+?)"', line)`: leftmost
occurrence of the literal head whose continuation finds a closing
quote. -/
def mergeSearch : List Char → Option (List Char)
  | [] => none
  | c :: t =>
    match (if ("Merging formats into \"".toList).isPrefixOf (c :: t)
           then lazyCaptureToQuote ((c :: t).drop 22) else none) with
    | some g => some g
    | none => mergeSearch t

/-- `re.search(r"Extracting audio to (.+)", line)`: leftmost occurrence
of the literal followed by at least one character; the greedy group
captures to the end of the line. -/
def extractSearch : List Char → Option (List Char)
  | [] => none
  | c :: t =>
    match (if ("Extracting audio to ".toList).isPrefixOf (c :: t)
           then (match (c :: t).drop 20 with
                 | [] => none
                 | r => some r)
           else none) with
    | some g => some g
    | none => extractSearch t

/-- Result of processing one raw line in `_read_stream`. -/
structure LineResult where
  st : RSState
  evs : List Ev
  /-- Did `float(...)` raise, killing this reader thread. -/
  died : Bool
deriving Repr, DecidableEq

/-- The stdout-only parsing block of `_read_stream` (lines 198-282),
entered after the line joined the diagnostic buffer; falls through to
the log forwarding (lines 284-291) unless a `continue` fires. -/
def stdoutParseAfterJson (env : RSEnv) (st : RSState)
    (ls : List Char) (logText : String) : LineResult :=
  match progressLineOutcome ls with
  | .raised => { st := st, evs := [], died := true }
  | .fields p sp e =>
    { st := st, evs := [.updateProgress p sp e "downloading"], died := false }
  | .noMatch =>
    let st :=
      if containsSub ("Merging formats into".toList) ls then
        match mergeSearch ls with
        | some cap => { st with finalPath := some (env.normpath (pyStripStr ⟨cap⟩)) }
        | none => st
      else if containsSub ("Extracting audio to".toList) ls then
        match extractSearch ls with
        | some cap => { st with finalPath := some (env.normpath (pyStripStr ⟨cap⟩)) }
        | none => st
      else st
    { st := st, evs := [.log logText], died := false }

/-- One iteration of the reader loop of `_read_stream` on a raw line:
strip, skip when empty, append to the diagnostic buffer, then (stdout
only) try JSON metadata, then the progress pattern, then the
filename markers; every surviving line is forwarded as a log event. -/
def readStreamLine (env : RSEnv) (name : String) (st : RSState) (raw : String) :
    LineResult :=
  let ls : List Char := pyStrip raw.toList
  if ls.isEmpty then { st := st, evs := [], died := false }
  else
    let line : String := ⟨ls⟩
    let logText : String := "Download Log: [" ++ name ++ "] " ++ line
    let st := { st with buffer := bufferPush st.buffer ("[" ++ name ++ "] " ++ line) }
    if name = "stdout" then
      if ("\x7b".toList).isPrefixOf ls && ("\x7d".toList).isSuffixOf ls then
        match env.jsonParse line with
        | some m =>
          let newTitle := m.title.getD env.initialTitle
          let st := { st with
            title := newTitle,
            finalPath := match m.filepath with
                         | some fp => some (env.normpath fp)
                         | none => st.finalPath }
          { st := st, evs := [.updateTitle newTitle env.initialTitle], died := false }
        | none => stdoutParseAfterJson env st ls logText
      else stdoutParseAfterJson env st ls logText
    else
      { st := st, evs := [.log logText], died := false }

/-- The whole reader loop over the lines of one stream.  A raised
`ValueError` ends this reader (its remaining lines are never read); the
other reader and the supervising thread are unaffected. -/
def readStream (env : RSEnv) (name : String) : RSState → List String → RSState × List Ev
  | st, [] => (st, [])
  | st, l :: ls =>
    let r := readStreamLine env name st l
    if r.died then (r.st, r.evs)
    else
      let rest := readStream env name r.st ls
      (rest.1, r.evs ++ rest.2)

end MediaDL

namespace MediaDL

/-! ## Finalization and the processor thread (`run`, lines 294-464) -/

/-- Root part of `os.path.splitext(p)`: the path up to the last dot of
its final component, provided some non-dot character of that component
stands before the dot (leading dots never start an extension). -/
def splitextRoot (p : List Char) : List Char :=
  let revBase := p.reverse.takeWhile (fun c => c ≠ '/' && c ≠ '\\')
  match findSubIdx ['.'] revBase with
  | none => p
  | some j =>
    let base := revBase.reverse
    let d := base.length - 1 - j
    if (base.take d).any (fun c => c ≠ '.') then p.take (p.length - (base.length - d))
    else p

/-- Outcome of `subprocess.Popen` in `run` (lines 296-310). -/
inductive PopenOutcome where
  /-- The process launched. -/
  | ok
  /-- `FileNotFoundError`: the binary is missing. -/
  | fileNotFound
  /-- Any other exception, with its type name and text. -/
  | otherExc (excName excMsg : String)
deriving Repr, DecidableEq

/-- Environment of one processor thread: constructor arguments plus the
outcomes of every external interaction `run` performs.  `cancelAtEnd`
is the value `cancel_event.is_set()` returns at line 362; the read in
the monitor loop (line 330) only triggers `terminate` and does not by
itself reach the event channel.  `waitTimedOut` records whether
`process.wait(timeout=10)` (line 339) raised `TimeoutExpired`, which —
the process having been observed alive in the loop — can only happen
after a cancellation-triggered `terminate` was ignored. -/
structure RunEnv where
  jsonParse : String → Option Meta
  normpath : String → String
  initialTitle : String
  downloadType : String
  isPlaylistItem : Bool
  nowStr : String
  popen : PopenOutcome
  stdoutLines : List String
  stderrLines : List String
  waitTimedOut : Bool
  timeoutMsg : String
  cancelAtEnd : Bool
  returnCode : Int
  fileExists : String → Bool
  /-- `self.generate_thumbnail_func` as a black box returning success;
  both candidate helpers catch every exception and return a boolean. -/
  thumbGen : String → String → Bool
  /-- Did the subtitle glob probe (lines 416-423) find a sibling file. -/
  subFileFound : Bool
  downloadSubtitles : Bool
  embedSubtitles : Bool

/-- The reader-visible slice of the environment. -/
def RunEnv.rs (env : RunEnv) : RSEnv :=
  { jsonParse := env.jsonParse, normpath := env.normpath,
    initialTitle := env.initialTitle }

/-- `_send_final_status` (lines 435-464): builds the payload — with
`download_success` computed as `status == "completed"` — and enqueues
it (the channel is unbounded, so the put succeeds). -/
def sendFinalStatus (env : RunEnv) (title status message : String)
    (filePath thumbnailPath : Option String) (subIndicator : String) : Ev :=
  .finalStatus {
    status := status
    message := message
    filePath := filePath
    downloadSuccess := status == "completed"
    dateStr := env.nowStr
    itemType := pyLowerStr env.downloadType
    isPlaylistItem := env.isPlaylistItem
    title := title
    thumbnailPath := thumbnailPath
    subIndicator := subIndicator }

/-- `_finalize_successful_download` (lines 377-433), reached only when
the process exited with code 0 and no cancellation was seen: verify the
resolved path (Python falsiness makes both `None` and `""` unresolved),
then pick a thumbnail — an existing sibling `.jpg` first, else the
injected generator — and probe subtitles; emit exactly one terminal
event.  The generator log adapter only produces log lines inside the
black-box helper and is not part of this trace. -/
def finalizeSuccessful (env : RunEnv) (st : RSState) : Ev :=
  let failEv := sendFinalStatus env st.title "failed"
    "Download process finished, but the final file could not be found." none none ""
  match st.finalPath with
  | none => failEv
  | some fp =>
    if fp.isEmpty || !env.fileExists fp then failEv
    else
      let thumb : String := (⟨splitextRoot fp.toList⟩ : String) ++ ".jpg"
      let thumbPath : Option String :=
        if env.fileExists thumb then some thumb
        else if env.thumbGen fp thumb then some thumb else none
      let subInd : String :=
        if env.downloadSubtitles then
          (if env.subFileFound || env.embedSubtitles then "+Subs" else "")
        else ""
      sendFinalStatus env st.title "completed" "Download completed successfully."
        (some fp) thumbPath subInd

/-- The processor thread body `run` (lines 294-375), as the trace of
events it enqueues.  The two readers run concurrently; the trace fixes
the canonical serialization stdout-then-stderr, which the properties
proved below do not distinguish (stderr lines never touch the
title/path state, and buffer order only matters to the classifier,
which is analyzed on explicit inputs).

Paths:
* `Popen` raises `FileNotFoundError` → one `failed` event, return;
* `Popen` raises otherwise → one generic `failed` event, return;
* launched, `process.wait(10)` times out (cancellation-triggered
  `terminate` ignored) → the blanket `except Exception` turns the
  `TimeoutExpired` into one generic `failed` event and returns (the
  `finally` block then force-kills without emitting);
* launched and waited: cancellation seen → `cancelled`; exit code 0 →
  finalization; otherwise → `failed` with the classified message or the
  generic exit-code message.

`processorFinalEv` is the terminal event of the launched path (lines
339-375): the `TimeoutExpired` branch, then the final
cancellation/exit-code analysis (lines 362-375). -/
def processorFinalEv (env : RunEnv) (st : RSState) : Ev :=
  if env.waitTimedOut then
    sendFinalStatus env st.title "failed"
      ("An unexpected error occurred in processor: TimeoutExpired - " ++ env.timeoutMsg ++ ".")
      none none ""
  else if env.cancelAtEnd then
    sendFinalStatus env st.title "cancelled" "Download cancelled by user." none none ""
  else if env.returnCode = 0 then
    finalizeSuccessful env st
  else
    sendFinalStatus env st.title "failed"
      ((parseYtDlpErrorProc st.buffer).getD
        ("yt-dlp exited with code " ++ toString env.returnCode ++ ". Check log for details."))
      none none ""

/-- The reader state at the end of the launched path (stdout fully
processed, then stderr). -/
def processorEndState (env : RunEnv) : RSState :=
  let initState : RSState := { title := env.initialTitle, finalPath := none, buffer := [] }
  (readStream env.rs "stderr"
    (readStream env.rs "stdout" initState env.stdoutLines).1 env.stderrLines).1

/-- The event trace of one processor thread. -/
def processorRun (env : RunEnv) : List Ev :=
  match env.popen with
  | .fileNotFound =>
    [sendFinalStatus env env.initialTitle "failed"
      "yt-dlp command not found. Ensure it is installed and in your system PATH."
      none none ""]
  | .otherExc n m =>
    [sendFinalStatus env env.initialTitle "failed"
      ("An unexpected error occurred in processor: " ++ n ++ " - " ++ m ++ ".")
      none none ""]
  | .ok =>
    let initState : RSState := { title := env.initialTitle, finalPath := none, buffer := [] }
    let r1 := readStream env.rs "stdout" initState env.stdoutLines
    let r2 := readStream env.rs "stderr" r1.1 env.stderrLines
    (r1.2 ++ r2.2) ++ [processorFinalEv env r2.1]

end MediaDL

namespace MediaDL

/-! ## The legacy driver (`download_logic.run_download_process`)

This is the driver the application actually wires in
(`app_logic.run_download_process_threaded_actual`).  The embedding
covers the terminal-status computation (lines 443-529) and the
exception handlers (lines 531-554); the reading loop state it consumes
(`was_cancelled`, `final_filename_with_path`, `download_title`,
`yt_dlp_output_lines`, the exit code) enters as the environment. -/

/-- How the body of the legacy driver ended. -/
inductive DLOutcome where
  /-- The loop finished; `was_cancelled` and the exit code are recorded. -/
  | normal (wasCancelled : Bool) (returnCode : Int)
  /-- `FileNotFoundError` from `Popen`. -/
  | excFileNotFound
  /-- `subprocess.TimeoutExpired`. -/
  | excTimeout
  /-- Any other exception, with type name and text. -/
  | excOther (excName excMsg : String)
deriving Repr, DecidableEq

/-- Environment of one legacy-driver invocation at status-computation
time. -/
structure DLEnv where
  url : String
  /-- `download_type`: the UI supplies "Video" or "Audio". -/
  downloadType : String
  isPlaylistItem : Bool
  nowStr : String
  outcome : DLOutcome
  downloadTitle : String
  finalPath : Option String
  outputLines : List String
  fileExists : String → Bool
  /-- `extract_album_art_logic` as a black box (audio branch). -/
  artOk : Bool
  /-- `generate_thumbnail_func` as a black box (video branch). -/
  thumbOk : Bool
  downloadSubtitles : Bool
  embedSubtitles : Bool
  subFileFound : Bool

/-- `item_type_for_history` (line 283). -/
def dlItemType (env : DLEnv) : String :=
  if env.downloadType = "Video" then "video" else "audio"

/-- Truthiness-and-existence test of line 461/487:
`final_filename_with_path and os.path.exists(final_filename_with_path)`. -/
def dlPathOk (env : DLEnv) : Bool :=
  match env.finalPath with
  | none => false
  | some fp => !fp.isEmpty && env.fileExists fp

/-- The terminal payload of the legacy driver: the cancellation payload
(lines 443-454), the success/failure payload with its thumbnail and
subtitle enrichment (lines 456-529), or an exception-handler payload
(lines 531-554). -/
def dlFinalPayload (env : DLEnv) : StatusPayload :=
  let basePayload : StatusPayload := {
    status := "failed"
    message := ""
    filePath := none
    downloadSuccess := false
    dateStr := env.nowStr
    itemType := dlItemType env
    isPlaylistItem := env.isPlaylistItem
    title := env.downloadTitle
    thumbnailPath := none
    subIndicator := "" }
  match env.outcome with
  | .excFileNotFound =>
    { basePayload with message := "yt-dlp (or python) command not found. Please ensure yt-dlp is installed and in your system PATH." }
  | .excTimeout =>
    { basePayload with message := "yt-dlp download timed out (exceeded 30 seconds). This may indicate a network issue or a very large file taking too long." }
  | .excOther n m =>
    { basePayload with message := "An unexpected error occurred: " ++ n ++ " - " ++ m ++ ". Check log for details." }
  | .normal wasCancelled rc =>
    if wasCancelled then
      { basePayload with
        status := "cancelled"
        message := "Download cancelled by user."
        filePath := env.finalPath }
    else
      let success := decide (rc = 0) && dlPathOk env
      let status := if success then "completed" else "failed"
      let message :=
        if rc = 0 then
          if dlPathOk env then "Download completed successfully."
          else "Download completed, but output file not found on disk."
        else
          (parseYtDlpErrorDL env.outputLines).getD
            ("yt-dlp exited with code " ++ toString rc ++ ". Check log for details.")
      let p := { basePayload with
        status := status, message := message, filePath := env.finalPath,
        downloadSuccess := success }
      if success then
        match env.finalPath with
        | none => p
        | some fp =>
          let thumb : String := (⟨splitextRoot fp.toList⟩ : String) ++ ".jpg"
          let thumbPath : Option String :=
            if env.fileExists thumb then some thumb
            else if dlItemType env = "audio" then
              (if env.artOk then some ((⟨splitextRoot fp.toList⟩ : String) ++ "_art.jpg") else none)
            else if dlItemType env = "video" then
              (if env.thumbOk then some thumb else none)
            else none
          let subInd : String :=
            if env.downloadSubtitles then
              (if env.subFileFound || env.embedSubtitles then "+Subs" else "")
            else ""
          { p with thumbnailPath := thumbPath, subIndicator := subInd }
      else p

/-! ## Command construction (`download_process_core`, lines 169-295) -/

/-- A download request as the command construction sees it. -/
structure DLRequest where
  url : String
  platform : String
  downloadType : String
  downloadDir : String
  selectedFormatCode : String
  downloadSubtitles : Bool
  subtitleLanguages : String
  embedSubtitles : Bool
deriving Repr, DecidableEq

/-- The interpreter-and-filesystem state `_get_yt_dlp_command_base`
consults: `sys.frozen`, `sys._MEIPASS`, `sys.executable`, and
`os.path.exists`. -/
structure SysEnv where
  frozen : Bool
  meipass : Option String
  sysExecutable : String
  fileExists : String → Bool

/-- `os.path.join` for the relative second components used here. -/
def pathJoin (a b : String) : String := a ++ "/" ++ b

/-- `os.path.dirname`. -/
def pathDirname (p : String) : String :=
  ⟨((p.toList.reverse.dropWhile (· ≠ '/')).drop 1).reverse⟩

/-- `_get_yt_dlp_command_base` (lines 169-192): in a frozen bundle look
for a bundled binary (else fail); otherwise probe the interpreter
Scripts directory, falling back to `[sys.executable, "-m", "yt_dlp"]`. -/
def ytDlpCommandBase (env : SysEnv) : Option (List String) :=
  match env.frozen, env.meipass with
  | true, some basePath =>
    if env.fileExists (pathJoin basePath "yt-dlp.exe") then
      some [pathJoin basePath "yt-dlp.exe"]
    else if env.fileExists (pathJoin basePath "yt-dlp") then
      some [pathJoin basePath "yt-dlp"]
    else none
  | _, _ =>
    let scriptsDir := pathJoin (pathDirname env.sysExecutable) "Scripts"
    if env.fileExists (pathJoin scriptsDir "yt-dlp.exe") then
      some [pathJoin scriptsDir "yt-dlp.exe"]
    else if env.fileExists (pathJoin scriptsDir "yt-dlp") then
      some [pathJoin scriptsDir "yt-dlp"]
    else some [env.sysExecutable, "-m", "yt_dlp"]

/-- The part of the argument vector after the base command, replayed
from lines 246-295: format options, output directory and template,
additional arguments, and the URL. -/
def commandTail (r : DLRequest) : List String :=
  let outputTemplate :=
    if r.platform = "instagram" || r.platform = "tiktok" then
      "%(uploader)s - %(title)s.%(ext)s"
    else "%(title)s.%(ext)s"
  let custom := !r.selectedFormatCode.isEmpty && pyLowerStr r.selectedFormatCode ≠ "best"
  let formatOptions :=
    if custom then ["-f", r.selectedFormatCode]
    else if r.downloadType = "Audio" then
      ["-f", "bestaudio[ext=m4a]/bestaudio", "--extract-audio", "--audio-format", "m4a"]
    else if r.platform = "youtube" then
      ["-f", "bestvideo[ext=mp4][vcodec^=avc]+bestaudio[ext=m4a]/best[ext=mp4]/best",
       "--merge-output-format", "mp4"]
    else ["-f", "bestvideo+bestaudio/best", "--merge-output-format", "mp4"]
  let addl :=
    ["--no-warnings", "--write-thumbnail", "--convert-thumbnails", "jpg", "--print-json"]
    ++ (if custom && r.downloadType = "Video" then ["--merge-output-format", "mp4"] else [])
    ++ (if r.downloadSubtitles then
          ["--write-subs"]
          ++ (if !r.subtitleLanguages.isEmpty && pyLowerStr r.subtitleLanguages = "all" then
                ["--all-subs"]
              else if !r.subtitleLanguages.isEmpty then
                ["--sub-lang", r.subtitleLanguages]
              else [])
          ++ (if r.embedSubtitles then ["--embed-subs"] else [])
        else [])
  formatOptions ++ ["-P", r.downloadDir, "-o", outputTemplate] ++ addl ++ [r.url]

/-- The full command construction of
`download_process_core.run_download_process` (lines 234-295): resolve
the base; on failure the function emits a build-error status instead
(`none` here); otherwise concatenate base, format options, output
flags, additional arguments, and the URL. -/
def buildCommand (env : SysEnv) (r : DLRequest) : Option (List String) :=
  match ytDlpCommandBase env with
  | none => none
  | some base => some (base ++ commandTail r)

/-- The helper handed to the processor as `generate_thumbnail_func`. -/
inductive ThumbHelper where
  /-- `generate_thumbnail_from_video_logic`: ffmpeg mid-point frame. -/
  | midFrameFromVideo
  /-- `extract_album_art_logic`: embedded album art extraction. -/
  | embeddedAlbumArt
deriving Repr, DecidableEq

/-- The helper selection of `download_process_core.run_download_process`
(lines 310-312): `generate_thumbnail_from_video_logic if download_type
== "video" else extract_album_art_logic`.  Note the lowercase literal:
the same function compares `download_type == "Video"` at line 261, and
the UI supplies "Video"/"Audio". -/
def chooseThumbnailHelper (downloadType : String) : ThumbHelper :=
  if downloadType = "video" then .midFrameFromVideo else .embeddedAlbumArt

/-! ## The queue manager (`main_app_window`, lines 429-500 and 582-596)

State relevant to launching: the `pending_downloads` queue, the
`current_active_download_id` marker, and — for the analysis — the list
of requests for which the launcher
(`app_logic.run_download_process_threaded_actual`) has been invoked. -/

/-- An entry of `pending_downloads`. -/
structure QueueItem where
  url : String
  isPlaylistItem : Bool
deriving Repr, DecidableEq

/-- Manager state. -/
structure MgrState where
  pendingDownloads : List QueueItem
  currentActiveId : Option String
  launched : List String
deriving Repr, DecidableEq

/-- `start_next_download_if_available` (lines 429-451): when no download
is active and the pending queue is non-empty, pop the head and invoke
the launcher for it.  The cancellation token is not consulted. -/
def startNextDownloadIfAvailable (st : MgrState) : MgrState :=
  if st.currentActiveId = none then
    match st.pendingDownloads with
    | [] => st
    | d :: rest =>
      { st with pendingDownloads := rest, launched := st.launched ++ [d.url] }
  else st

/-- The `MSG_DOWNLOAD_ITEM_ADDED` branch of `process_download_queue`
(lines 589-596): create the item UI and set
`current_active_download_id := download_id`.  It neither stores the
item in `pending_downloads` nor invokes the launcher. -/
def handleItemAdded (st : MgrState) (id : String) : MgrState :=
  { st with currentActiveId := some id }

/-- `_reset_ui_on_download_completion(is_full_reset=True)` (lines
471-496): clear the active id and drain the pending queue. -/
def resetOnCompletionFull (st : MgrState) : MgrState :=
  { st with currentActiveId := none, pendingDownloads := [] }

/-- The message trace the playlist worker
(`app_logic.run_playlist_download_threaded`, lines 430-458) sends for a
fetched playlist: one `MSG_DOWNLOAD_ITEM_ADDED` per member, under a
fresh temporary id. -/
def playlistWorkerTrace (tempIds : List String) : List String := tempIds

/-- Processing of the worker trace by `process_download_queue`. -/
def processAddedMessages (st : MgrState) (msgs : List String) : MgrState :=
  msgs.foldl handleItemAdded st

end MediaDL

namespace MediaDL

/-! ## Basic lemmas about event traces -/

theorem terminalEvents_append (a b : List Ev) :
    terminalEvents (a ++ b) = terminalEvents a ++ terminalEvents b := by
  simp [terminalEvents]

theorem logEvents_append (a b : List Ev) :
    logEvents (a ++ b) = logEvents a ++ logEvents b := by
  simp [logEvents]

theorem readStreamLine_no_terminal (env : RSEnv) (name : String) (st : RSState)
    (raw : String) : terminalEvents (readStreamLine env name st raw).evs = [] := by
  unfold readStreamLine stdoutParseAfterJson
  dsimp only
  repeat' split
  all_goals rfl

theorem readStream_no_terminal (env : RSEnv) (name : String) :
    ∀ (lines : List String) (st : RSState),
      terminalEvents (readStream env name st lines).2 = [] := by
  intro lines
  induction lines with
  | nil => intro st; rfl
  | cons l ls ih =>
    intro st
    show terminalEvents
      (if (readStreamLine env name st l).died then
        ((readStreamLine env name st l).st, (readStreamLine env name st l).evs)
       else
        ((readStream env name (readStreamLine env name st l).st ls).1,
         (readStreamLine env name st l).evs ++
           (readStream env name (readStreamLine env name st l).st ls).2)).2 = []
    split
    · exact readStreamLine_no_terminal env name st l
    · rw [terminalEvents_append, readStreamLine_no_terminal, ih]
      rfl

theorem finalizeSuccessful_final (env : RunEnv) (st : RSState) :
    ∃ p, finalizeSuccessful env st = Ev.finalStatus p := by
  unfold finalizeSuccessful
  cases st.finalPath with
  | none => exact ⟨_, rfl⟩
  | some fp =>
    dsimp only
    split
    · exact ⟨_, rfl⟩
    · exact ⟨_, rfl⟩

theorem processorFinalEv_final (env : RunEnv) (st : RSState) :
    ∃ p, processorFinalEv env st = Ev.finalStatus p := by
  unfold processorFinalEv
  repeat' split
  · exact ⟨_, rfl⟩
  · exact ⟨_, rfl⟩
  · exact finalizeSuccessful_final env st
  · exact ⟨_, rfl⟩

/-- Claim C1: for every accepted request the processor emits exactly one
terminal status event: on every path of `run` — launch failure by a
missing binary, any other launch or supervision exception (including
the post-cancellation wait timeout), cancellation, success, verified
failure — the trace carries exactly one `MSG_DOWNLOAD_ITEM_STATUS`
event, never zero and never two, with the reader threads contributing
none. -/
theorem C1_exactly_one_terminal_event (env : RunEnv) :
    (terminalEvents (processorRun env)).length = 1 := by
  unfold processorRun
  cases env.popen with
  | fileNotFound => rfl
  | otherExc n m => rfl
  | ok =>
    dsimp only
    rw [terminalEvents_append, terminalEvents_append,
        readStream_no_terminal, readStream_no_terminal]
    obtain ⟨p, hp⟩ := processorFinalEv_final env
      (readStream env.rs "stderr"
        (readStream env.rs "stdout"
          { title := env.initialTitle, finalPath := none, buffer := [] }
          env.stdoutLines).1 env.stderrLines).1
    rw [hp]
    rfl

end MediaDL

namespace MediaDL

/-- The invariant claimed for every terminal payload: the boolean
`download_success` equals the test `status == "completed"`. -/
def flagOk (p : StatusPayload) : Bool := p.downloadSuccess == (p.status == "completed")

theorem processorFinalEv_flagOk (env : RunEnv) (st : RSState) :
    (terminalEvents [processorFinalEv env st]).all flagOk = true := by
  unfold processorFinalEv finalizeSuccessful
  dsimp only
  repeat' split
  all_goals rfl

/-- Claim C10: on every code path, the terminal payload's
`download_success` field is `true` exactly when its `status` is
`"completed"`: in the processor `_send_final_status` computes the field
as `status == "completed"`, and in the legacy driver the separately
tracked `download_success` variable agrees with the computed status on
the cancellation path, both exit-code paths, the file-verification
failure path, and all three exception handlers. -/
theorem C10_download_success_equals_completed :
    (∀ env : RunEnv, (terminalEvents (processorRun env)).all flagOk = true) ∧
    (∀ denv : DLEnv, flagOk (dlFinalPayload denv) = true) := by
  constructor
  · intro env
    unfold processorRun
    cases env.popen with
    | fileNotFound => rfl
    | otherExc n m => rfl
    | ok =>
      dsimp only
      rw [terminalEvents_append, terminalEvents_append,
          readStream_no_terminal, readStream_no_terminal]
      exact processorFinalEv_flagOk env _
  · intro denv
    unfold flagOk dlFinalPayload
    dsimp only
    repeat' split
    all_goals simp_all [dlPathOk]

end MediaDL

namespace MediaDL

/-- Characterization of a `completed` terminal event of the launched
path: it can only arise with no timeout, no cancellation, exit code 0,
and a non-empty resolved path that exists on disk (carried in the
payload). -/
theorem processorFinalEv_completed (env : RunEnv) (st : RSState) (p : StatusPayload)
    (h : processorFinalEv env st = Ev.finalStatus p) (hs : p.status = "completed") :
    env.waitTimedOut = false ∧ env.cancelAtEnd = false ∧ env.returnCode = 0 ∧
      ∃ fp, st.finalPath = some fp ∧ fp.isEmpty = false ∧ env.fileExists fp = true ∧
        p.filePath = some fp := by
  unfold processorFinalEv finalizeSuccessful sendFinalStatus at h
  dsimp only at h
  by_cases h1 : env.waitTimedOut
  · simp only [h1, if_true] at h
    cases h
    simp at hs
  · simp only [h1, if_false] at h
    by_cases h2 : env.cancelAtEnd
    · simp only [h2, if_true] at h
      cases h
      simp at hs
    · simp only [h2, if_false] at h
      by_cases h3 : env.returnCode = 0
      · simp only [h3, if_true] at h
        refine ⟨by simp [h1], by simp [h2], h3, ?_⟩
        cases hfp : st.finalPath with
        | none =>
          rw [hfp] at h
          cases h
          simp at hs
        | some fp =>
          rw [hfp] at h
          dsimp only at h
          by_cases h4 : (fp.isEmpty || !env.fileExists fp) = true
          · simp only [h4, if_true] at h
            cases h
            simp at hs
          · have h4f : (fp.isEmpty || !env.fileExists fp) = false := by
              simpa using h4
            rw [h4f] at h
            simp only [Bool.false_eq_true, if_false] at h
            cases h
            refine ⟨fp, rfl, ?_, ?_, rfl⟩
            · exact (Bool.or_eq_false_iff.mp h4f).1
            · simpa using (Bool.or_eq_false_iff.mp h4f).2
      · simp only [h3, if_false] at h
        cases h
        simp at hs

end MediaDL

namespace MediaDL

/-- Claim C2: exit code 0 with an unresolved (absent or empty) or
non-existent resolved output path yields a `failed` terminal event with
the output-file-not-found message, never `completed` — in the
processor (`_finalize_successful_download`) and in the legacy driver
(lines 456-467) alike; conversely, a `completed` terminal event can
only carry exit code 0 together with a non-empty resolved path that
exists on disk.  (When a cancellation was observed the terminal event
is `cancelled`, so the failure direction is stated for the
finalization path, which is exactly the non-cancelled exit-code-0
path.) -/
theorem C2_success_verified_not_trusted :
    (∀ (env : RunEnv) (st : RSState),
       (st.finalPath = none ∨
        ∃ fp, st.finalPath = some fp ∧ (fp.isEmpty || !env.fileExists fp) = true) →
       finalizeSuccessful env st =
         sendFinalStatus env st.title "failed"
           "Download process finished, but the final file could not be found." none none "")
    ∧
    (∀ (env : RunEnv) (p : StatusPayload), p ∈ terminalEvents (processorRun env) →
       p.status = "completed" →
       env.popen = PopenOutcome.ok ∧ env.waitTimedOut = false ∧ env.cancelAtEnd = false ∧
       env.returnCode = 0 ∧
       ∃ fp, p.filePath = some fp ∧ fp.isEmpty = false ∧ env.fileExists fp = true)
    ∧
    (∀ (denv : DLEnv) (wc : Bool) (rc : Int), denv.outcome = DLOutcome.normal wc rc →
       wc = false → rc = 0 → dlPathOk denv = false →
       (dlFinalPayload denv).status = "failed" ∧
       (dlFinalPayload denv).message = "Download completed, but output file not found on disk.")
    ∧
    (∀ denv : DLEnv, (dlFinalPayload denv).status = "completed" →
       ∃ wc rc, denv.outcome = DLOutcome.normal wc rc ∧ wc = false ∧ rc = 0 ∧
         dlPathOk denv = true) := by
  refine ⟨?_, ?_, ?_, ?_⟩
  · intro env st hbad
    unfold finalizeSuccessful
    rcases hbad with hnone | ⟨fp, hfp, hb⟩
    · rw [hnone]
    · rw [hfp]
      dsimp only
      rw [hb]
      simp
  · intro env p hmem hs
    unfold processorRun at hmem
    cases hpo : env.popen with
    | fileNotFound =>
      rw [hpo] at hmem
      simp [terminalEvents, sendFinalStatus] at hmem
      subst hmem
      simp at hs
    | otherExc n m =>
      rw [hpo] at hmem
      simp [terminalEvents, sendFinalStatus] at hmem
      subst hmem
      simp at hs
    | ok =>
      rw [hpo] at hmem
      dsimp only at hmem
      rw [terminalEvents_append, terminalEvents_append,
          readStream_no_terminal, readStream_no_terminal] at hmem
      obtain ⟨q, hq⟩ := processorFinalEv_final env
        (readStream env.rs "stderr"
          (readStream env.rs "stdout"
            { title := env.initialTitle, finalPath := none, buffer := [] }
            env.stdoutLines).1 env.stderrLines).1
      rw [hq] at hmem
      simp [terminalEvents] at hmem
      subst hmem
      obtain ⟨hw, hc, hrc, fp, _, he, hex, hpf⟩ :=
        processorFinalEv_completed env _ p hq hs
      exact ⟨rfl, hw, hc, hrc, fp, hpf, he, hex⟩
  · intro denv wc rc hout hwc hrc hpath
    subst hwc
    subst hrc
    unfold dlFinalPayload
    rw [hout]
    simp [hpath]
  · intro denv hs
    unfold dlFinalPayload at hs
    cases hout : denv.outcome with
    | excFileNotFound => rw [hout] at hs; simp at hs
    | excTimeout => rw [hout] at hs; simp at hs
    | excOther n m => rw [hout] at hs; simp at hs
    | normal wc rc =>
      rw [hout] at hs
      dsimp only at hs
      by_cases hwc : wc = true
      · rw [hwc] at hs
        simp at hs
      · have hwcf : wc = false := by simpa using hwc
        rw [hwcf] at hs
        simp only [Bool.false_eq_true, if_false] at hs
        by_cases hsucc : (decide (rc = 0) && dlPathOk denv) = true
        · rcases Bool.and_eq_true_iff.mp hsucc with ⟨hrc, hdl⟩
          exact ⟨wc, rc, rfl, hwcf, of_decide_eq_true hrc, hdl⟩
        · have hsf : (decide (rc = 0) && dlPathOk denv) = false := by simpa using hsucc
          rw [hsf] at hs
          simp at hs

end MediaDL

namespace MediaDL

/-- Concrete processor environment for the C2 witness: a launched run,
no timeout, no cancellation, exit code 0, with no path resolved. -/
def c2Env : RunEnv := {
  jsonParse := fun _ => none, normpath := id, initialTitle := "u",
  downloadType := "Video", isPlaylistItem := false, nowStr := "2026-01-01 00:00",
  popen := .ok, stdoutLines := [], stderrLines := [], waitTimedOut := false,
  timeoutMsg := "", cancelAtEnd := false, returnCode := 0,
  fileExists := fun _ => false, thumbGen := fun _ _ => false, subFileFound := false,
  downloadSubtitles := false, embedSubtitles := false }

/-- Reader state with no resolved path, for the C2 witness. -/
def c2St : RSState := { title := "u", finalPath := none, buffer := [] }

/-- Concrete legacy-driver environment for the C2 witness: normal exit,
not cancelled, exit code 0, no path resolved. -/
def c2Denv : DLEnv := {
  url := "u", downloadType := "Video", isPlaylistItem := false,
  nowStr := "2026-01-01 00:00", outcome := .normal false 0, downloadTitle := "u",
  finalPath := none, outputLines := [], fileExists := fun _ => false,
  artOk := false, thumbOk := false, downloadSubtitles := false,
  embedSubtitles := false, subFileFound := false }

/-- Witness for C2 at a concrete exit-code-0 run with no resolved path:
both embedded drivers report `failed` with their
output-file-not-found message. -/
theorem C2_success_verified_not_trusted_witness :
    finalizeSuccessful c2Env c2St =
      sendFinalStatus c2Env c2St.title "failed"
        "Download process finished, but the final file could not be found." none none "" ∧
    (dlFinalPayload c2Denv).status = "failed" ∧
    (dlFinalPayload c2Denv).message = "Download completed, but output file not found on disk." :=
  ⟨C2_success_verified_not_trusted.1 c2Env c2St (Or.inl rfl),
   C2_success_verified_not_trusted.2.2.1 c2Denv false 0 rfl rfl rfl rfl⟩

/-- Concrete processor environment for C3: the cancellation token is
set and the process ignored the graceful terminate beyond the 10-second
`process.wait` (so the wait raised `TimeoutExpired`). -/
def c3Env : RunEnv := {
  jsonParse := fun _ => none, normpath := id, initialTitle := "u",
  downloadType := "Video", isPlaylistItem := false, nowStr := "2026-01-01 00:00",
  popen := .ok, stdoutLines := [], stderrLines := [], waitTimedOut := true,
  timeoutMsg := "Command timed out after 10 seconds", cancelAtEnd := true,
  returnCode := 0, fileExists := fun _ => false, thumbGen := fun _ _ => false,
  subFileFound := false, downloadSubtitles := false, embedSubtitles := false }

/-- Claim C3 (code bug demonstration): on a run whose cancellation token
is set but whose process ignores the graceful terminate for longer
than the 10-second `process.wait` timeout, the processor's blanket
`except Exception` converts the `TimeoutExpired` into a `failed`
terminal event — emitted before the `finally` block force-kills the
still-running process — instead of the `cancelled` event the claim
requires after the process has actually exited. -/
theorem C3_ignored_terminate_reports_failed :
    (terminalEvents (processorRun c3Env)).map (fun p => p.status) = ["failed"] ∧
    (terminalEvents (processorRun c3Env)).map (fun p => p.message) =
      ["An unexpected error occurred in processor: TimeoutExpired - Command timed out after 10 seconds."] ∧
    c3Env.cancelAtEnd = true ∧ c3Env.waitTimedOut = true :=
  ⟨rfl, rfl, rfl, rfl⟩

/-- Concrete processor environment for C7 with an existing sibling
thumbnail and a generator that always fails. -/
def c7EnvSibling : RunEnv := {
  jsonParse := fun _ => none, normpath := id, initialTitle := "t",
  downloadType := "Video", isPlaylistItem := false, nowStr := "2026-01-01 00:00",
  popen := .ok, stdoutLines := [], stderrLines := [], waitTimedOut := false,
  timeoutMsg := "", cancelAtEnd := false, returnCode := 0,
  fileExists := fun p => p == "/d/v.mp4" || p == "/d/v.jpg",
  thumbGen := fun _ _ => false, subFileFound := false,
  downloadSubtitles := false, embedSubtitles := false }

/-- Concrete processor environment for C7 with no sibling thumbnail. -/
def c7EnvNoSibling : RunEnv := {
  jsonParse := fun _ => none, normpath := id, initialTitle := "t",
  downloadType := "Video", isPlaylistItem := false, nowStr := "2026-01-01 00:00",
  popen := .ok, stdoutLines := [], stderrLines := [], waitTimedOut := false,
  timeoutMsg := "", cancelAtEnd := false, returnCode := 0,
  fileExists := fun p => p == "/d/v.mp4",
  thumbGen := fun _ _ => false, subFileFound := false,
  downloadSubtitles := false, embedSubtitles := false }

/-- Reader state with a resolved, existing output path, for C7. -/
def c7St : RSState := { title := "t", finalPath := some "/d/v.mp4", buffer := [] }

/-- Like `c7EnvNoSibling` but with a generator that succeeds. -/
def c7EnvGenOk : RunEnv := {
  jsonParse := fun _ => none, normpath := id, initialTitle := "t",
  downloadType := "Video", isPlaylistItem := false, nowStr := "2026-01-01 00:00",
  popen := .ok, stdoutLines := [], stderrLines := [], waitTimedOut := false,
  timeoutMsg := "", cancelAtEnd := false, returnCode := 0,
  fileExists := fun p => p == "/d/v.mp4",
  thumbGen := fun _ _ => true, subFileFound := false,
  downloadSubtitles := false, embedSubtitles := false }

/-- A custom-format "Video" request, used to show that line 261 of the
same function recognizes "Video" (capitalized) as the video kind. -/
def c7VideoReq : DLRequest := {
  url := "u", platform := "youtube", downloadType := "Video", downloadDir := "d",
  selectedFormatCode := "137", downloadSubtitles := false,
  subtitleLanguages := "en", embedSubtitles := true }

/-- Claim C7 (code bug demonstration): the helper-selection expression
of `download_process_core.run_download_process` compares
`download_type == "video"`, but the application supplies `"Video"` /
`"Audio"` (the same function tests `download_type == "Video"` for the
merge flag, and the merge flag is indeed produced for `"Video"`), so a
video download is handed the embedded-album-art extractor instead of
the mid-point-frame generator.  The best-effort parts of the claim do
hold and are recorded here: an existing sibling `.jpg` is preferred
even when the generator fails; with no sibling a failing generator
leaves the thumbnail empty and a succeeding one fills it; and in every
case the terminal status remains `completed`. -/
theorem C7_video_download_gets_album_art_helper :
    chooseThumbnailHelper "Video" = ThumbHelper.embeddedAlbumArt ∧
    chooseThumbnailHelper "Audio" = ThumbHelper.embeddedAlbumArt ∧
    chooseThumbnailHelper "video" = ThumbHelper.midFrameFromVideo ∧
    (commandTail c7VideoReq).contains "--merge-output-format" = true ∧
    finalizeSuccessful c7EnvSibling c7St =
      sendFinalStatus c7EnvSibling "t" "completed" "Download completed successfully."
        (some "/d/v.mp4") (some "/d/v.jpg") "" ∧
    finalizeSuccessful c7EnvNoSibling c7St =
      sendFinalStatus c7EnvNoSibling "t" "completed" "Download completed successfully."
        (some "/d/v.mp4") none "" ∧
    finalizeSuccessful c7EnvGenOk c7St =
      sendFinalStatus c7EnvGenOk "t" "completed" "Download completed successfully."
        (some "/d/v.mp4") (some "/d/v.jpg") "" :=
  ⟨rfl, rfl, rfl, by decide, rfl, rfl, rfl⟩

end MediaDL


namespace MediaDL

/-- `float` on a captured percent numeral never produces a negative
value (the class `[\d\.]` has no sign). -/
theorem parsePyFloat_nonneg (s : List Char) (q : ℚ) (h : parsePyFloat s = some q) :
    0 ≤ q := by
  unfold parsePyFloat at h
  dsimp only at h
  repeat' split at h
  all_goals try (exact Option.noConfusion h)
  all_goals injection h with h'
  all_goals subst h'
  all_goals positivity

/-- Evaluation helper: a progress line whose speed and ETA groups are
absent yields the parsed percent and the "N/A" sentinels. -/
theorem progressLineOutcome_fields_of (line pc : List Char) (q : ℚ)
    (h1 : progressSearch line = some { pct := pc, spd := none, eta := none })
    (h2 : parsePyFloat pc = some q) :
    progressLineOutcome line = ProgressOutcome.fields q "N/A" "N/A" := by
  unfold progressLineOutcome
  rw [h1]
  dsimp only
  rw [h2]
  rfl

/-- Reader environment stub for the C4 demonstrations (no JSON line is
involved). -/
def c4Env : RSEnv := { jsonParse := fun _ => none, normpath := id, initialTitle := "u" }

/-- Reader state stub for the C4 demonstrations. -/
def c4St : RSState := { title := "u", finalPath := none, buffer := [] }

/-- Claim C4 counterexample: the line `[download] 250.5% of 10.00MiB`
is matched as a progress line and the emitted percent is 250.5, outside
`[0,100]` — the code never clamps the parsed value. -/
theorem C4_percent_not_clamped_counterexample :
    progressLineOutcome ("[download] 250.5% of 10.00MiB".toList) =
      ProgressOutcome.fields ((501 : ℚ)/2) "N/A" "N/A" ∧
    ¬(((501 : ℚ)/2) ≤ 100) := by
  constructor
  · refine progressLineOutcome_fields_of _ ("250.5".toList) _ (by decide) ?_
    simp [parsePyFloat, digitsToNat, isDigitDot, isAsciiDigit]
    norm_num
  · norm_num

/-- Claim C4 as amended: for a line matched as a progress line the
emitted percent is the `float` of the captured numeral — nonnegative
but not clamped above, so it can exceed 100; absent (or falsy) speed
and ETA groups degrade to the sentinel "N/A"; and the parse succeeds
without exception only when the captured numeral is a well-formed
float literal — a numeral such as `1.2.3` makes `float` raise
`ValueError`, which kills the reader thread (subsequent lines of that
stream are never processed). -/
theorem C4_progress_parse_amended :
    (∀ (line : List Char) (p : ℚ) (sp e : String),
       progressLineOutcome line = ProgressOutcome.fields p sp e → 0 ≤ p) ∧
    progressLineOutcome ("[download]  25.5% of 10.00MiB at 5.00MiB/s ETA 00:10".toList) =
      ProgressOutcome.fields ((51 : ℚ)/2) "N/A" "N/A" ∧
    progressLineOutcome ("[download] 1.2.3% of x".toList) = ProgressOutcome.raised ∧
    (readStream c4Env "stdout" c4St ["[download] 1.2.3% of x", "a later line"]).2 = [] := by
  refine ⟨?_, ?_, by decide, by decide⟩
  · intro line p sp e h
    unfold progressLineOutcome at h
    cases hg : progressSearch line with
    | none => rw [hg] at h; exact absurd h (by simp)
    | some g =>
      rw [hg] at h
      dsimp only at h
      cases hp : parsePyFloat g.pct with
      | none => rw [hp] at h; exact absurd h (by simp)
      | some q =>
        rw [hp] at h
        injection h with hpq hsp he
        have hq := parsePyFloat_nonneg g.pct q hp
        rwa [hpq] at hq
  · refine progressLineOutcome_fields_of _ ("25.5".toList) _ (by decide) ?_
    simp [parsePyFloat, digitsToNat, isDigitDot, isAsciiDigit]
    norm_num

/-- Witness for the amended C4 at a concrete progress line. -/
theorem C4_progress_parse_amended_witness :
    progressLineOutcome ("[download] 50.0% of 10MiB".toList) =
      ProgressOutcome.fields (50 : ℚ) "N/A" "N/A" ∧
    (0 : ℚ) ≤ 50 := by
  have hf : progressLineOutcome ("[download] 50.0% of 10MiB".toList) =
      ProgressOutcome.fields (50 : ℚ) "N/A" "N/A" := by
    refine progressLineOutcome_fields_of _ ("50.0".toList) _ (by decide) ?_
    simp [parsePyFloat, digitsToNat, isDigitDot, isAsciiDigit]
  exact ⟨hf, C4_progress_parse_amended.1 ("[download] 50.0% of 10MiB".toList)
    50 "N/A" "N/A" hf⟩

end MediaDL

namespace MediaDL

/-! ## Lemmas for the error classifier (C5) -/

theorem isPrefixOf_trans {a b c : List Char} (h1 : a.isPrefixOf b = true)
    (h2 : b.isPrefixOf c = true) : a.isPrefixOf c = true := by
  rw [List.isPrefixOf_iff_prefix] at h1 h2 ⊢
  exact h1.trans h2

/-- Containment is antitone in the pattern along prefixes. -/
theorem containsSub_of_isPrefixOf {p q : List Char} (hpq : p.isPrefixOf q = true) :
    ∀ {s : List Char}, containsSub q s = true → containsSub p s = true := by
  intro s
  induction s with
  | nil =>
    intro h
    unfold containsSub at h ⊢
    have hq : q = [] := by
      cases q with
      | nil => rfl
      | cons a t => simp at h
    subst hq
    cases p with
    | nil => rfl
    | cons a t => simp at hpq
  | cons c t ih =>
    intro h
    unfold containsSub at h ⊢
    rcases Bool.or_eq_true_iff.mp h with h1 | h2
    · exact Bool.or_eq_true_iff.mpr (Or.inl (isPrefixOf_trans hpq h1))
    · exact Bool.or_eq_true_iff.mpr (Or.inr (ih h2))

theorem containsSub_of_findSubIdx {pat : List Char} :
    ∀ {s : List Char}, (findSubIdx pat s).isSome = true → containsSub pat s = true := by
  intro s
  induction s with
  | nil =>
    intro h
    unfold findSubIdx at h
    unfold containsSub
    split at h
    · simpa using ‹pat.isEmpty = true›
    · simp at h
  | cons c t ih =>
    intro h
    unfold findSubIdx at h
    unfold containsSub
    split at h
    · exact Bool.or_eq_true_iff.mpr (Or.inl ‹_›)
    · refine Bool.or_eq_true_iff.mpr (Or.inr (ih ?_))
      cases hf : findSubIdx pat t with
      | none => rw [hf] at h; simp at h
      | some i => simp [hf]

theorem find?_isSome_of_any {α : Type} {p : α → Bool} :
    ∀ {l : List α}, l.any p = true → (l.find? p).isSome = true := by
  intro l
  induction l with
  | nil => intro h; simp at h
  | cons a t ih =>
    intro h
    rw [List.find?_cons]
    cases ha : p a with
    | true => rfl
    | false =>
      rcases List.any_eq_true.mp h with ⟨x, hx, hpx⟩
      cases List.mem_cons.mp hx with
      | inl he => subst he; rw [ha] at hpx; exact absurd hpx (by simp)
      | inr ht => exact ih (List.any_eq_true.mpr ⟨x, ht, hpx⟩)

/-- When some line of the diagnostic window contains `ERROR:`
(case-insensitively), the pattern loop cannot return `None`: either a
specific row matches or the catch-all builds a message. -/
theorem matchErrorTable_isSome {base : List String}
    (h : base.any (fun l => lineHasErrorColon l.toList) = true) :
    (matchErrorTable base).isSome = true := by
  unfold matchErrorTable
  cases hm : (ytDlpErrorTable.find? (fun row =>
      base.any (fun l => rowMatchesLine row.1 l.toList))).map (·.2) with
  | some m => rfl
  | none =>
    dsimp only
    have hcp : (catchAllPayload base).isSome = true := by
      unfold catchAllPayload
      have hf := find?_isSome_of_any h
      cases hl0 : base.find? (fun l => lineHasErrorColon l.toList) with
      | none => rw [hl0] at hf; simp at hf
      | some l0 =>
        dsimp only
        have hp : lineHasErrorColon l0.toList = true := by
          have := List.find?_some hl0
          simpa using this
        unfold lineHasErrorColon at hp
        cases hi : findSubIdx ("error:".toList) (lowerL l0.toList) with
        | none => rw [hi] at hp; simp at hp
        | some i => rfl
    cases hcpv : catchAllPayload base with
    | none => rw [hcpv] at hcp; simp at hcp
    | some payload =>
      dsimp only
      split
      · rfl
      · rfl

set_option maxRecDepth 100000 in
/-- Claim C5 counterexample: the classifier restricts attention to the
last 500 lines, so an `ERROR:` line older than that window yields
`None` even though the input contains an `ERROR:` line. -/
theorem C5_error_window_counterexample :
    lineHasErrorColon ("ERROR: x".toList) = true ∧
    parseYtDlpErrorProc ("ERROR: x" :: List.replicate 500 "abc") = none := by
  exact ⟨rfl, rfl⟩

set_option maxRecDepth 100000 in
/-- Claim C5 as amended: the diagnostic line `ERROR: something
completely new` matches no specific row and classifies through the
catch-all into a message containing that text verbatim; a captured
payload longer than 150 characters is truncated with an ellipsis; and
the classifier never returns `None` when its last-500-line window
contains a case-insensitive `ERROR:` line (without the window
restriction the guarantee fails, as the counterexample shows). -/
theorem C5_catchall_classifier_amended :
    parseYtDlpErrorProc ["ERROR: something completely new"] =
      some "yt-dlp Error: something completely new" ∧
    containsSub ("something completely new".toList)
      ("yt-dlp Error: something completely new".toList) = true ∧
    parseYtDlpErrorProc [(⟨"ERROR: ".toList ++ List.replicate 160 'a'⟩ : String)] =
      some ("yt-dlp Error: " ++ (⟨List.replicate 150 'a'⟩ : String) ++ "...") ∧
    (∀ lines : List String,
       (takeLast 500 lines).any (fun l => lineHasErrorColon l.toList) = true →
       (parseYtDlpErrorProc lines).isSome = true) := by
  refine ⟨rfl, by decide, rfl, ?_⟩
  intro lines hany
  obtain ⟨l0, hmem, hl0⟩ := List.any_eq_true.mp hany
  unfold parseYtDlpErrorProc
  dsimp only
  have hpred : (containsSub ("error".toList) (lowerL l0.toList) ||
      containsSub ("warning".toList) (lowerL l0.toList) ||
      containsSub ("fail".toList) (lowerL l0.toList)) = true := by
    have hec : containsSub ("error:".toList) (lowerL l0.toList) = true := by
      apply containsSub_of_findSubIdx
      unfold lineHasErrorColon at hl0
      exact hl0
    have he : containsSub ("error".toList) (lowerL l0.toList) = true :=
      containsSub_of_isPrefixOf (by decide) hec
    exact Bool.or_eq_true_iff.mpr (Or.inl (Bool.or_eq_true_iff.mpr (Or.inl he)))
  have hmemf : l0 ∈ (takeLast 500 lines).filter (fun l =>
      containsSub ("error".toList) (lowerL l.toList) ||
      containsSub ("warning".toList) (lowerL l.toList) ||
      containsSub ("fail".toList) (lowerL l.toList)) :=
    List.mem_filter.mpr ⟨hmem, hpred⟩
  have hne : ((takeLast 500 lines).filter (fun l =>
      containsSub ("error".toList) (lowerL l.toList) ||
      containsSub ("warning".toList) (lowerL l.toList) ||
      containsSub ("fail".toList) (lowerL l.toList))).isEmpty = false := by
    cases hflt : (takeLast 500 lines).filter (fun l =>
        containsSub ("error".toList) (lowerL l.toList) ||
        containsSub ("warning".toList) (lowerL l.toList) ||
        containsSub ("fail".toList) (lowerL l.toList)) with
    | nil => rw [hflt] at hmemf; simp at hmemf
    | cons a t => simp [hflt]
  rw [hne]
  simp only [Bool.false_eq_true, if_false]
  exact matchErrorTable_isSome
    (List.any_eq_true.mpr ⟨l0, hmemf, hl0⟩)

/-- Witness for the amended C5 at a concrete window containing an
`ERROR:` line. -/
theorem C5_catchall_classifier_amended_witness :
    (takeLast 500 ["ERROR: q"]).any (fun l => lineHasErrorColon l.toList) = true ∧
    (parseYtDlpErrorProc ["ERROR: q"]).isSome = true :=
  ⟨rfl, C5_catchall_classifier_amended.2.2.2 ["ERROR: q"] rfl⟩

end MediaDL


namespace MediaDL

/-! ## Which lines reach the log (C8) -/

/-- The line was consumed by the JSON-metadata branch (lines 200-230):
brace-delimited and `json.loads` succeeded. -/
def jsonConsumed (env : RSEnv) (ls : List Char) : Bool :=
  ("\x7b".toList).isPrefixOf ls && ("\x7d".toList).isSuffixOf ls &&
    (env.jsonParse ⟨ls⟩).isSome

/-- The line was consumed by the progress branch (lines 233-266). -/
def progressConsumed (ls : List Char) : Bool :=
  match progressLineOutcome ls with
  | .fields _ _ _ => true
  | _ => false

/-- The progress branch raises on this line (malformed numeral). -/
def progressRaises (ls : List Char) : Bool :=
  match progressLineOutcome ls with
  | .raised => true
  | _ => false

/-- A stdout line is consumed without logging when either branch with a
`continue` fires. -/
def consumedStdoutLine (env : RSEnv) (ls : List Char) : Bool :=
  jsonConsumed env ls || progressConsumed ls

/-- A stdout line kills the reader when the progress branch raises and
the JSON branch did not already consume the line. -/
def raisesLine (env : RSEnv) (ls : List Char) : Bool :=
  !jsonConsumed env ls && progressRaises ls

/-- The log text `_read_stream` forwards for a line. -/
def logTextOfLine (name : String) (ls : List Char) : String :=
  "Download Log: [" ++ name ++ "] " ++ (⟨ls⟩ : String)

/-- Per-line log characterization for stdout: a non-raising line is
forwarded as exactly one log event when it is non-empty and consumed by
neither the JSON-metadata branch nor the progress branch, and is not
forwarded otherwise. -/
theorem readStreamLine_stdout_log (env : RSEnv) (st : RSState) (raw : String)
    (h : raisesLine env (pyStrip raw.toList) = false) :
    logEvents (readStreamLine env "stdout" st raw).evs =
      (if ((pyStrip raw.toList).isEmpty ||
           consumedStdoutLine env (pyStrip raw.toList)) = true
       then [] else [logTextOfLine "stdout" (pyStrip raw.toList)]) ∧
    (readStreamLine env "stdout" st raw).died = false := by
  unfold raisesLine jsonConsumed progressRaises at h
  unfold readStreamLine stdoutParseAfterJson consumedStdoutLine jsonConsumed progressConsumed
  dsimp only
  by_cases h0 : (pyStrip raw.toList).isEmpty = true
  · rw [h0]
    simp only [eq_self_iff_true, if_true, Bool.true_or]
    exact ⟨rfl, by trivial⟩
  · have h0f : (pyStrip raw.toList).isEmpty = false := Bool.eq_false_iff.mpr h0
    rw [h0f]
    simp only [Bool.false_eq_true, if_false, Bool.false_or, eq_self_iff_true, if_true]
    by_cases hshape : (("\x7b".toList).isPrefixOf (pyStrip raw.toList) &&
        ("\x7d".toList).isSuffixOf (pyStrip raw.toList)) = true
    · rw [hshape] at h ⊢
      simp only [eq_self_iff_true, if_true, Bool.true_and] at h ⊢
      cases hj : env.jsonParse ⟨pyStrip raw.toList⟩ with
      | some m =>
        simp only [Option.isSome_some, Bool.true_or, eq_self_iff_true, if_true]
        exact ⟨rfl, by trivial⟩
      | none =>
        rw [hj] at h
        simp only [Option.isSome_none, Bool.not_false, Bool.true_and,
          Bool.false_or] at h ⊢
        cases hout : progressLineOutcome (pyStrip raw.toList) with
        | raised => rw [hout] at h; exact absurd h (by simp)
        | fields p sp e =>
          simp only [eq_self_iff_true, if_true]
          exact ⟨rfl, by trivial⟩
        | noMatch =>
          simp only [Bool.false_eq_true, if_false]
          exact ⟨rfl, by trivial⟩
    · have hsf : (("\x7b".toList).isPrefixOf (pyStrip raw.toList) &&
          ("\x7d".toList).isSuffixOf (pyStrip raw.toList)) = false :=
        Bool.eq_false_iff.mpr hshape
      rw [hsf] at h ⊢
      simp only [Bool.false_eq_true, if_false, Bool.false_and, Bool.not_false,
        Bool.true_and, Bool.false_or] at h ⊢
      cases hout : progressLineOutcome (pyStrip raw.toList) with
      | raised => rw [hout] at h; exact absurd h (by simp)
      | fields p sp e =>
        simp only [eq_self_iff_true, if_true]
        exact ⟨rfl, by trivial⟩
      | noMatch =>
        simp only [Bool.false_eq_true, if_false]
        exact ⟨rfl, by trivial⟩

/-- Every non-empty stderr line is forwarded as a log event (stderr
lines are never parsed, so they can neither be consumed nor kill the
reader). -/
theorem readStream_stderr_logs (env : RSEnv) :
    ∀ (lines : List String) (st : RSState),
      logEvents (readStream env "stderr" st lines).2 =
        lines.filterMap (fun raw =>
          if (pyStrip raw.toList).isEmpty then none
          else some (logTextOfLine "stderr" (pyStrip raw.toList))) := by
  intro lines
  induction lines with
  | nil => intro st; rfl
  | cons l ls ih =>
    intro st
    have hline : (readStreamLine env "stderr" st l).died = false ∧
        logEvents (readStreamLine env "stderr" st l).evs =
          (if (pyStrip l.toList).isEmpty then []
           else [logTextOfLine "stderr" (pyStrip l.toList)]) := by
      unfold readStreamLine
      dsimp only
      by_cases h0 : (pyStrip l.toList).isEmpty = true
      · rw [h0]
        simp only [eq_self_iff_true, if_true]
        exact ⟨by trivial, rfl⟩
      · have h0f : (pyStrip l.toList).isEmpty = false := Bool.eq_false_iff.mpr h0
        rw [h0f]
        simp only [Bool.false_eq_true, if_false]
        rw [if_neg (by decide)]
        exact ⟨by trivial, rfl⟩
    show logEvents
      (if (readStreamLine env "stderr" st l).died then
        ((readStreamLine env "stderr" st l).st, (readStreamLine env "stderr" st l).evs)
       else
        ((readStream env "stderr" (readStreamLine env "stderr" st l).st ls).1,
         (readStreamLine env "stderr" st l).evs ++
           (readStream env "stderr" (readStreamLine env "stderr" st l).st ls).2)).2 =
      List.filterMap _ (l :: ls)
    rw [if_neg (by simp [hline.1])]
    rw [logEvents_append, hline.2, ih]
    rw [List.filterMap_cons]
    by_cases h0 : (pyStrip l.toList).isEmpty = true
    · rw [h0]
      simp
    · have h0f : (pyStrip l.toList).isEmpty = false := Bool.eq_false_iff.mpr h0
      rw [h0f]
      simp

/-- Reader environment whose JSON oracle always fails, for C8. -/
def c8Env : RSEnv := { jsonParse := fun _ => none, normpath := id, initialTitle := "u" }

/-- Reader environment whose JSON oracle accepts the line, for C8. -/
def c8EnvJson : RSEnv :=
  { jsonParse := fun _ => some { title := some "T", filepath := none },
    normpath := id, initialTitle := "u" }

/-- Reader state stub for C8. -/
def c8St : RSState := { title := "u", finalPath := none, buffer := [] }

/-- Claim C8 counterexample: a non-empty stdout line parsed as a
progress update, and a non-empty stdout line parsed as JSON metadata,
are consumed by their `continue` branches and never forwarded as log
events (each produces a non-log event instead). -/
theorem C8_consumed_lines_not_logged_counterexample :
    pyStrip ("[download] 50.0% of 10MiB".toList) ≠ [] ∧
    logEvents (readStream c8Env "stdout" c8St ["[download] 50.0% of 10MiB"]).2 = [] ∧
    (readStream c8Env "stdout" c8St ["[download] 50.0% of 10MiB"]).2 ≠ [] ∧
    pyStrip ("\x7b\x7d".toList) ≠ [] ∧
    logEvents (readStream c8EnvJson "stdout" c8St ["\x7b\x7d"]).2 = [] ∧
    (readStream c8EnvJson "stdout" c8St ["\x7b\x7d"]).2 ≠ [] := by
  refine ⟨by decide, by decide, by decide, by decide, by decide, by decide⟩

/-- Claim C8 as amended: every non-empty line is forwarded verbatim as
a log event except the stdout lines consumed by the JSON-metadata
branch or by the progress branch, which emit their structured event and
skip the log; stderr lines, never parsed, are always forwarded. -/
theorem C8_log_forwarding_amended :
    (∀ (env : RSEnv) (st : RSState) (raw : String),
       raisesLine env (pyStrip raw.toList) = false →
       logEvents (readStreamLine env "stdout" st raw).evs =
         (if ((pyStrip raw.toList).isEmpty ||
              consumedStdoutLine env (pyStrip raw.toList)) = true
          then [] else [logTextOfLine "stdout" (pyStrip raw.toList)])) ∧
    (∀ (env : RSEnv) (lines : List String) (st : RSState),
       logEvents (readStream env "stderr" st lines).2 =
         lines.filterMap (fun raw =>
           if (pyStrip raw.toList).isEmpty then none
           else some (logTextOfLine "stderr" (pyStrip raw.toList)))) :=
  ⟨fun env st raw h => (readStreamLine_stdout_log env st raw h).1,
   readStream_stderr_logs⟩

/-- Witness for the amended C8: an ordinary line is logged on stdout,
and stderr forwards its line. -/
theorem C8_log_forwarding_amended_witness :
    logEvents (readStreamLine c8Env "stdout" c8St "hello").evs =
      (if (((pyStrip ("hello".toList)).isEmpty ||
            consumedStdoutLine c8Env (pyStrip ("hello".toList))) = true)
       then [] else [logTextOfLine "stdout" (pyStrip ("hello".toList))]) ∧
    logEvents (readStream c8Env "stderr" c8St ["hello"]).2 =
      ["hello"].filterMap (fun raw =>
        if (pyStrip raw.toList).isEmpty then none
        else some (logTextOfLine "stderr" (pyStrip raw.toList))) :=
  ⟨C8_log_forwarding_amended.1 c8Env c8St "hello" (by decide),
   C8_log_forwarding_amended.2 c8Env ["hello"] c8St⟩

end MediaDL

namespace MediaDL

/-- The request used in the C9 demonstrations. -/
def c9Req : DLRequest := {
  url := "https://x/y", platform := "other", downloadType := "Video",
  downloadDir := "/dl", selectedFormatCode := "best",
  downloadSubtitles := false, subtitleLanguages := "en", embedSubtitles := true }

/-- Interpreter state in which the Scripts-directory probe finds a
yt-dlp binary. -/
def c9EnvA : SysEnv := {
  frozen := false, meipass := none, sysExecutable := "/opt/py/python",
  fileExists := fun p => p == "/opt/py/Scripts/yt-dlp.exe" }

/-- The same interpreter state except that the binary is absent. -/
def c9EnvB : SysEnv := {
  frozen := false, meipass := none, sysExecutable := "/opt/py/python",
  fileExists := fun _ => false }

/-- A second record definitionally equal to `c9EnvB`, for the witness. -/
def c9EnvB2 : SysEnv := {
  frozen := false, meipass := none, sysExecutable := "/opt/py/python",
  fileExists := fun _ => false }

/-- Claim C9 counterexample: two invocations with the identical request
(url, platform, download type, format selector, subtitle options,
download directory) and identical interpreter state, differing only in
the filesystem consulted by `_get_yt_dlp_command_base` (whether
`Scripts/yt-dlp.exe` exists), construct different argument vectors —
the builder does depend on mutable external state. -/
theorem C9_builder_reads_filesystem_counterexample :
    c9EnvA.frozen = c9EnvB.frozen ∧ c9EnvA.meipass = c9EnvB.meipass ∧
    c9EnvA.sysExecutable = c9EnvB.sysExecutable ∧
    buildCommand c9EnvA c9Req ≠ buildCommand c9EnvB c9Req := by
  refine ⟨rfl, rfl, rfl, by decide⟩

/-- Claim C9 as amended: the argument vector decomposes as the resolved
base command followed by a tail that is a function of the request
alone; the construction is deterministic given the interpreter state
and the filesystem answers that `_get_yt_dlp_command_base` probes —
the only external dependence is that base-command resolution. -/
theorem C9_builder_deterministic_given_probes :
    (∀ (env : SysEnv) (r : DLRequest),
       buildCommand env r = (ytDlpCommandBase env).map (fun b => b ++ commandTail r)) ∧
    (∀ (e1 e2 : SysEnv) (r : DLRequest),
       e1.frozen = e2.frozen → e1.meipass = e2.meipass →
       e1.sysExecutable = e2.sysExecutable →
       (∀ p, e1.fileExists p = e2.fileExists p) →
       buildCommand e1 r = buildCommand e2 r) := by
  constructor
  · intro env r
    unfold buildCommand
    cases ytDlpCommandBase env with
    | none => rfl
    | some b => rfl
  · intro e1 e2 r h1 h2 h3 hfe
    have hbase : ytDlpCommandBase e1 = ytDlpCommandBase e2 := by
      unfold ytDlpCommandBase
      simp only [h1, h2, h3, hfe]
    unfold buildCommand
    rw [hbase]

/-- Witness for the amended C9 at concrete states and request. -/
theorem C9_builder_deterministic_given_probes_witness :
    buildCommand c9EnvA c9Req =
      (ytDlpCommandBase c9EnvA).map (fun b => b ++ commandTail c9Req) ∧
    buildCommand c9EnvB c9Req = buildCommand c9EnvB2 c9Req :=
  ⟨C9_builder_deterministic_given_probes.1 c9EnvA c9Req,
   C9_builder_deterministic_given_probes.2 c9EnvB c9EnvB2 c9Req
     rfl rfl rfl (fun _ => rfl)⟩

/-- Pending items for the C6 drain demonstration. -/
def c6Items : List QueueItem :=
  [{ url := "https://x/1", isPlaylistItem := true },
   { url := "https://x/2", isPlaylistItem := true }]

/-- Claim C6 (code bug demonstration): the playlist worker enqueues its
members as `MSG_DOWNLOAD_ITEM_ADDED` messages, and the manager's
handler for that message only creates the item UI and marks the
temporary id active — it never stores the member in `pending_downloads`
and never invokes the launcher.  After the worker trace for a
two-member batch is processed, nothing has been launched, the pending
queue is still empty, and the stale active id even blocks
`start_next_download_if_available` from ever launching anything, so the
claimed sequential execution (M completions, then a drain of the
rest) cannot occur at all.  The drain mechanism itself does exist:
`_reset_ui_on_download_completion(True)` empties `pending_downloads`,
as the last conjunct records. -/
theorem C6_playlist_members_never_launched :
    (processAddedMessages
      { pendingDownloads := [], currentActiveId := none, launched := [] }
      (playlistWorkerTrace ["tmp1", "tmp2"])).launched = [] ∧
    (processAddedMessages
      { pendingDownloads := [], currentActiveId := none, launched := [] }
      (playlistWorkerTrace ["tmp1", "tmp2"])).pendingDownloads = [] ∧
    (processAddedMessages
      { pendingDownloads := [], currentActiveId := none, launched := [] }
      (playlistWorkerTrace ["tmp1", "tmp2"])).currentActiveId = some "tmp2" ∧
    (startNextDownloadIfAvailable (processAddedMessages
      { pendingDownloads := [], currentActiveId := none, launched := [] }
      (playlistWorkerTrace ["tmp1", "tmp2"]))).launched = [] ∧
    (resetOnCompletionFull
      { pendingDownloads := c6Items, currentActiveId := some "a",
        launched := [] }).pendingDownloads = [] := by
  refine ⟨rfl, rfl, rfl, rfl, rfl⟩

end MediaDL
